import Mathlib

/-
  Verification development for the PDK.io token-lifecycle code.

  The repository has two variants of the same component stack:
    * `auth.py`      — production variant (namespace `Auth` below);
    * `betaAuth.py`  — beta variant with refresh tokens (namespace `Beta` below).

  Each variant contains a `TokenManager` (SQLite-backed token store), a
  `PDKAuth` class (token lifecycle manager plus the browser-emulating login
  flow) and a `BaseAPI` (authenticated request client).  The embedding below
  models the SQLite table as a list of rows (INSERT OR REPLACE = remove the
  rows with the same primary key, then cons the new row), UTC instants as
  natural-number seconds, and every HTTP interaction through an explicit
  environment record whose fields are the parts of the remote responses the
  code actually reads.  Raised Python exceptions become `Except.error`
  values; `None`/`''` truthiness is modelled explicitly.
-/

namespace PDKio

/-- Python truthiness of an optional string: `None` and `''` are falsy,
every other string is truthy. -/
def truthy : Option String → Bool
  | none => false
  | some s => s != ""

/-- Python `a or b` for an optional string `a` and a string `b`:
yields the contents of `a` when truthy, otherwise `b`. -/
def pyOr (a : Option String) (b : String) : String :=
  match a with
  | none => b
  | some s => if s != "" then s else b

/-- Auxiliary splitter over character lists (accumulator holds the current
chunk reversed). -/
def splitCharAux (sep : Char) : List Char → List Char → List String
  | [], acc => [String.mk acc.reverse]
  | c :: cs, acc =>
      if c = sep then String.mk acc.reverse :: splitCharAux sep cs []
      else splitCharAux sep cs (c :: acc)

/-- Python `s.split(sep)` for a one-character separator: keeps empty chunks,
`"".split(sep) = [""]`. -/
def pySplit (sep : Char) (s : String) : List String :=
  splitCharAux sep s.data []

/-- Python `s[:n]` (slice by code points). -/
def pyTake (n : Nat) (s : String) : String :=
  String.mk (s.data.take n)

/-- Python `lst[-1]` on the result of a split (a split result is never
empty, so the default is never used). -/
def pyLast (l : List String) : String :=
  l.getLastD ""

/-- A key lookup in a Python dict built from a list of pairs: later pairs
override earlier ones, a missing key gives `None` (`dict.get`). -/
def dictGet (ps : List (String × String)) (k : String) : Option String :=
  ps.reverse.lookup k

/-- One `k=v` chunk of a URL fragment; Python's `dict(...)` constructor
raises `ValueError` unless the chunk splits into exactly two parts. -/
def parsePair (s : String) : Option (String × String) :=
  match pySplit '=' s with
  | [k, v] => some (k, v)
  | _ => none

/-- Models `dict(param.split('=') for param in fragment.split('&'))`:
`none` models the `ValueError` raised on a malformed chunk. -/
def parseParams (frag : String) : Option (List (String × String)) :=
  (pySplit '&' frag).mapM parsePair

/-- An `Except.isOk`-style discriminator used in the theorems. -/
def exceptOk {ε α : Type} : Except ε α → Bool
  | .ok _ => true
  | .error _ => false

/-- Errors raised by the authentication code.  `rateLimited` is the 429
branch (the production variant calls `exit()`, the beta variant raises
`Exception("Rate limit exceeded")`; both abort the call with nothing
stored), `loginFailed` is `Exception("Login failed")`, and `flowFailed`
covers `Exception("Failed to complete authentication flow")` together with
the `ValueError` a malformed fragment raises out of `dict(...)`. -/
inductive Err where
  | rateLimited
  | loginFailed
  | flowFailed
deriving Repr, DecidableEq

/- ===================================================================
   Production variant: `pdk_io_endpoints/auth.py`
   =================================================================== -/

namespace Auth

/-- The `USER_CONFIG["client_id"]` constant in `auth.py`. -/
def client_id : String := "544557759a01deb9874c02ee"

/-- The `PDKAuth.redirect_uri` constant in `auth.py`. -/
def redirect_uri : String := "https://pdk.io/authCallback"

/-- The dictionary `_perform_login` passes to `store_tokens` (and the
dictionaries the lifecycle manager's read paths rebuild from a row). -/
structure AuthData where
  current_system_id : String
  auth_token : Option String
  access_token : Option String
  system_token : Option String
  auth_nonce : Option String
deriving Repr, DecidableEq

/-- One row of the `tokens` table created by `TokenManager.init_db`
(column order: system_id, auth_token, access_token, system_token,
auth_nonce, auth_token_expiry, system_token_expiry, last_updated).
Timestamps are UTC seconds. -/
structure Row where
  system_id : String
  auth_token : Option String
  access_token : Option String
  system_token : Option String
  auth_nonce : Option String
  auth_token_expiry : Nat
  system_token_expiry : Nat
  last_updated : Nat
deriving Repr, DecidableEq

/-- The `tokens` table. -/
abbrev DB := List Row

namespace TM

/-- The row `TokenManager.store_tokens` inserts: every expiry is stamped
relative to the wall clock at store time (`now + timedelta(minutes=5)` for
both the auth and the system token). -/
def mkRow (d : AuthData) (now : Nat) : Row :=
  { system_id := d.current_system_id
    auth_token := d.auth_token
    access_token := d.access_token
    system_token := d.system_token
    auth_nonce := d.auth_nonce
    auth_token_expiry := now + 300
    system_token_expiry := now + 300
    last_updated := now }

/-- Models `TokenManager.store_tokens`: `INSERT OR REPLACE` keyed on the
`system_id` primary key — any existing row with the same key is replaced. -/
def store_tokens (db : DB) (d : AuthData) (now : Nat) : DB :=
  mkRow d now :: db.filter (fun r => r.system_id != d.current_system_id)

/-- Models `TokenManager.get_valid_tokens`: `SELECT * FROM tokens WHERE
system_id = ? AND system_token_expiry > ?now`, returning the first hit. -/
def get_valid_tokens (db : DB) (system_id : String) (now : Nat) : Option Row :=
  db.find? (fun r => r.system_id == system_id && decide (r.system_token_expiry > now))

/-- Models `TokenManager.get_valid_auth_token`: `SELECT auth_token FROM tokens
WHERE system_id = ? AND auth_token_expiry > ?now`; the selected column may
itself be NULL (`result[0] if result else None`). -/
def get_valid_auth_token (db : DB) (system_id : String) (now : Nat) : Option String :=
  match db.find? (fun r => r.system_id == system_id && decide (r.auth_token_expiry > now)) with
  | some r => r.auth_token
  | none => none

end TM

/-- The remote platform plus library randomness, as seen by `auth.py`:
one field per piece of a response the code reads.  `mintStatus`/`mintToken`
describe `POST /api/systems/{id}/token` as a function of the bearer token
presented; `unquote` stands for `urllib.parse.unquote`. -/
structure Env where
  loginStatus : Nat
  uuid4 : String
  oauthStatus : Nat
  oauthLocation : String
  inter1Status : Nat
  inter2Status : Nat
  inter2Location : String
  unquote : String → String
  mintStatus : String → Nat
  mintToken : String → Option String

/-- Models `PDKAuth.refresh_system_token`: on a 200 the body's `token` field
(`.json().get('token')`, possibly absent), otherwise `None`. -/
def refresh_system_token (env : Env) (auth_token : String) : Option String :=
  if env.mintStatus auth_token == 200 then env.mintToken auth_token else none

/-- The expression `nonce = ''.join(str(uuid.uuid4()).split('-'))[:32]` applied to the
random UUID string the environment supplies. -/
def mkNonce (u : String) : String :=
  pyTake 32 ((pySplit '-' u).foldl (fun a b => a ++ b) "")

/-- The `oauth_params` dictionary of `_perform_login` (step 3). -/
def oauth_params (nonce : String) : List (String × String) :=
  [("response_type", "id_token token"),
   ("client_id", client_id),
   ("redirect_uri", redirect_uri),
   ("nonce", nonce),
   ("scope", "openid")]

/-- The HTTP requests `_perform_login` issues, in order, with the request
material that varies per step. -/
inductive Step where
  | loginPost
  | profileFetch
  | oauthAuthorize (params : List (String × String))
  | interaction1 (interactionId : String)
  | interaction2 (interactionId : String)
  | mint (bearer : String)
deriving Repr, DecidableEq

/-- Models `PDKAuth._perform_login`.  Returns the flow outcome together with the
list of requests attempted.  Every failure path of the Python code is an
uncaught exception (or `exit()` on a 429), so none of them reaches a
`store_tokens` call. -/
def _perform_login (env : Env) (system_id : String) :
    Except Err AuthData × List Step :=
  -- Step 1: POST /auth/local
  if env.loginStatus == 429 then
    (.error .rateLimited, [.loginPost])
  else if env.loginStatus != 200 then
    (.error .loginFailed, [.loginPost])
  else
    -- Step 2: GET /profile (status unused); Step 3: GET /oauth2/auth
    let nonce := mkNonce env.uuid4
    let tr := [Step.loginPost, Step.profileFetch, Step.oauthAuthorize (oauth_params nonce)]
    if env.oauthStatus == 302 then
      let interaction_id := pyLast (pySplit '/' env.oauthLocation)
      -- Step 4a: GET /interaction/{id}
      let tr := tr ++ [Step.interaction1 interaction_id]
      if env.inter1Status == 302 then
        -- Step 4b: GET /oauth2/auth/{id}
        let tr := tr ++ [Step.interaction2 interaction_id]
        if env.inter2Status == 302 then
          let callback_url := env.inter2Location
          if (pySplit '#' callback_url).length ≥ 2 then
            let fragment := (pySplit '#' callback_url).getD 1 ""
            match parseParams (env.unquote fragment) with
            | none => (.error .flowFailed, tr)   -- ValueError out of dict(...)
            | some params =>
              let auth_token := dictGet params "id_token"
              let access_token := dictGet params "access_token"
              match auth_token with
              | some tok =>
                if tok != "" then
                  -- Step 5: system token mint with bearer id_token
                  let tr := tr ++ [Step.mint tok]
                  match refresh_system_token env tok with
                  | some st =>
                    if st != "" then
                      (.ok { current_system_id := system_id
                             auth_nonce := some nonce
                             auth_token := some tok
                             access_token := access_token
                             system_token := some st }, tr)
                    else (.error .flowFailed, tr)
                  | none => (.error .flowFailed, tr)
                else (.error .flowFailed, tr)
              | none => (.error .flowFailed, tr)
          else (.error .flowFailed, tr)
        else (.error .flowFailed, tr)
      else (.error .flowFailed, tr)
    else (.error .flowFailed, tr)

/-- Models `PDKAuth.login`: run the flow and persist its result; a raised flow
failure propagates with the store untouched. -/
def login (env : Env) (system_id : String) (db : DB) (now : Nat) :
    Except Err AuthData × List Step × DB :=
  match _perform_login env system_id with
  | (.ok d, tr) => (.ok d, tr, TM.store_tokens db d now)
  | (.error e, tr) => (.error e, tr, db)

/-- The actions the lifecycle manager (`PDKAuth.get_valid_tokens`)
performs, in order: token-store queries, the tier-2 exchange with the
bearer token it presents, and a full login-flow invocation. -/
inductive LAct where
  | queryValid
  | queryAuthTok
  | tier2 (bearer : String)
  | loginFlow
deriving Repr, DecidableEq

/-- Is this action the tier-2 system-token exchange? -/
def LAct.isT2 : LAct → Bool
  | .tier2 _ => true
  | _ => false

/-- Is this action a full login-flow invocation? -/
def LAct.isLogin : LAct → Bool
  | .loginFlow => true
  | _ => false

namespace PDK

/-- Tail of the lifecycle manager: run the full flow and tag the
lifecycle trace with the invocation. -/
def doLogin (env : Env) (system_id : String) (db : DB) (now : Nat)
    (tr : List LAct) : Except Err AuthData × List LAct × DB :=
  match login env system_id db now with
  | (res, _, db') => (res, tr ++ [LAct.loginFlow], db')

/-- Models `PDKAuth.get_valid_tokens` (the `ensureCredentials` operation):
tier 1 reuse a valid system token, tier 2 exchange a valid auth token for
a fresh system token and persist, otherwise full login. -/
def get_valid_tokens (env : Env) (system_id : String) (db : DB) (now : Nat) :
    Except Err AuthData × List LAct × DB :=
  match TM.get_valid_tokens db system_id now with
  | some tokens =>
      (.ok { current_system_id := tokens.system_id    -- tokens[0]
             auth_token := tokens.auth_token           -- tokens[1]
             access_token := tokens.access_token       -- tokens[2]
             system_token := tokens.system_token       -- tokens[3]
             auth_nonce := tokens.auth_nonce },        -- tokens[4]
       [.queryValid], db)
  | none =>
      let auth_token := TM.get_valid_auth_token db system_id now
      match auth_token with
      | some tok =>
          if tok != "" then
            let st := refresh_system_token env tok
            if truthy st then
              let d : AuthData :=
                { current_system_id := system_id
                  auth_token := some tok
                  access_token := none
                  system_token := st
                  auth_nonce := none }
              (.ok d, [.queryValid, .queryAuthTok, .tier2 tok],
               TM.store_tokens db d now)
            else
              doLogin env system_id db now [.queryValid, .queryAuthTok, .tier2 tok]
          else
            doLogin env system_id db now [.queryValid, .queryAuthTok]
      | none =>
          doLogin env system_id db now [.queryValid, .queryAuthTok]

end PDK

end Auth

/- ===================================================================
   Beta variant: `pdk_io_endpoints/betaAuth.py`
   =================================================================== -/

namespace Beta

/-- The `USER_CONFIG["client_id"]` constant in `betaAuth.py`. -/
def client_id : String := "66df80e41f3e3361083b2941"

/-- The `ENV_CONFIG["beta"]["callback_url"]` constant. -/
def redirect_uri : String := "https://beta.pdk.io/api/auth/callback"

/-- The dictionaries handed to `store_tokens` in `betaAuth.py`; absent
dictionary keys are `none` (the store reads every field with `.get`). -/
structure AuthData where
  current_system_id : String
  auth_token : Option String
  access_token : Option String
  system_token : Option String
  refresh_token : Option String
  auth_nonce : Option String
deriving Repr, DecidableEq

/-- One row of the beta `tokens` table (`init_db` column order: system_id,
auth_token, access_token, system_token, refresh_token, auth_nonce,
auth_token_expiry, system_token_expiry, refresh_token_expiry,
last_updated). -/
structure Row where
  system_id : String
  auth_token : Option String
  access_token : Option String
  system_token : Option String
  refresh_token : Option String
  auth_nonce : Option String
  auth_token_expiry : Nat
  system_token_expiry : Nat
  refresh_token_expiry : Nat
  last_updated : Nat
deriving Repr, DecidableEq

/-- The beta `tokens` table. -/
abbrev DB := List Row

namespace TM

/-- The row `TokenManager.store_tokens` inserts: identity and system token
expiries are `now + 5 minutes`, the refresh token expiry `now + 30 days`,
all stamped at store time. -/
def mkRow (d : AuthData) (now : Nat) : Row :=
  { system_id := d.current_system_id
    auth_token := d.auth_token
    access_token := d.access_token
    system_token := d.system_token
    refresh_token := d.refresh_token
    auth_nonce := d.auth_nonce
    auth_token_expiry := now + 300
    system_token_expiry := now + 300
    refresh_token_expiry := now + 2592000
    last_updated := now }

/-- Beta `TokenManager.store_tokens` (`INSERT OR REPLACE` on the
`system_id` primary key). -/
def store_tokens (db : DB) (d : AuthData) (now : Nat) : DB :=
  mkRow d now :: db.filter (fun r => r.system_id != d.current_system_id)

/-- Beta `TokenManager.get_valid_tokens` (`system_token_expiry > now`). -/
def get_valid_tokens (db : DB) (system_id : String) (now : Nat) : Option Row :=
  db.find? (fun r => r.system_id == system_id && decide (r.system_token_expiry > now))

/-- Beta `TokenManager.get_valid_auth_token` (`auth_token_expiry > now`). -/
def get_valid_auth_token (db : DB) (system_id : String) (now : Nat) : Option String :=
  match db.find? (fun r => r.system_id == system_id && decide (r.auth_token_expiry > now)) with
  | some r => r.auth_token
  | none => none

/-- Beta `TokenManager.get_valid_refresh_token`
(`refresh_token_expiry > now`). -/
def get_valid_refresh_token (db : DB) (system_id : String) (now : Nat) : Option String :=
  match db.find? (fun r => r.system_id == system_id && decide (r.refresh_token_expiry > now)) with
  | some r => r.refresh_token
  | none => none

end TM

/-- The remote platform as read by `betaAuth.py`.  `cb*` fields describe
the cross-domain callback exchange, `mint*` the
`GET /api/auth/refresh/system/{id}` response as a function of the bearer
token, and `refresh*` the `GET /api/auth/refresh` response. -/
structure Env where
  loginStatus : Nat
  oauthStatus : Nat
  oauthLocation : String
  inter1Status : Nat
  inter2Status : Nat
  inter2Location : String
  cbStatus : Nat
  cbIdToken : Option String
  cbRefreshToken : Option String
  mintStatus : String → Nat
  mintCookieToken : String → Option String
  refreshStatus : Nat
  refreshIdToken : Option String
  refreshRefreshToken : Option String

/-- Beta `PDKAuth.refresh_system_token`: on a 200 the `systemToken`
response cookie if truthy, otherwise `None`. -/
def refresh_system_token (env : Env) (auth_token : String) : Option String :=
  if env.mintStatus auth_token == 200 then
    if truthy (env.mintCookieToken auth_token) then env.mintCookieToken auth_token
    else none
  else none

/-- The `oauth_params` dictionary of the beta `_perform_login` (step 5):
no nonce is generated or sent in this variant. -/
def oauth_params : List (String × String) :=
  [("response_type", "code"),
   ("scope", "openid offline_access"),
   ("prompt", "consent"),
   ("client_id", client_id),
   ("redirect_uri", redirect_uri)]

/-- The HTTP requests the beta `_perform_login` issues, in order. -/
inductive Step where
  | profileCheck
  | preLoginCheck
  | loginPost
  | profileFetch
  | oauthAuthorize (params : List (String × String))
  | interaction1 (interactionId : String)
  | interaction2 (interactionId : String)
  | callbackExchange (url : String)
  | mint (bearer : String)
deriving Repr, DecidableEq

/-- Beta `PDKAuth._perform_login`.  The surrounding `try/except` in the
source logs and re-raises, so failures still propagate with nothing
stored. -/
def _perform_login (env : Env) (system_id : String) :
    Except Err AuthData × List Step :=
  -- Steps 1-3: profile probe, GET /auth/local, POST /auth/local
  let tr := [Step.profileCheck, Step.preLoginCheck, Step.loginPost]
  if env.loginStatus == 429 then
    (.error .rateLimited, tr)
  else if env.loginStatus != 200 then
    (.error .loginFailed, tr)
  else
    -- Step 4: GET /profile; Step 5: GET /oauth2/auth (no nonce parameter)
    let tr := tr ++ [Step.profileFetch, Step.oauthAuthorize oauth_params]
    if env.oauthStatus == 302 then
      let interaction_id := pyLast (pySplit '/' env.oauthLocation)
      let tr := tr ++ [Step.interaction1 interaction_id]
      if env.inter1Status == 302 then
        let tr := tr ++ [Step.interaction2 interaction_id]
        if env.inter2Status == 302 then
          let callback_url := env.inter2Location
          -- Step 8: follow the cross-domain callback URL
          let tr := tr ++ [Step.callbackExchange callback_url]
          if env.cbStatus == 302 || env.cbStatus == 307 then
            let id_token := env.cbIdToken
            let refresh_token := env.cbRefreshToken
            if truthy id_token && truthy refresh_token then
              match id_token with
              | some tok =>
                -- Step 9: system token via the refresh endpoint
                let tr := tr ++ [Step.mint tok]
                match refresh_system_token env tok with
                | some st =>
                    (.ok { current_system_id := system_id
                           auth_token := some tok
                           access_token := none                 -- key absent
                           refresh_token := refresh_token
                           system_token := some st
                           auth_nonce := none }, tr)            -- key absent
                | none => (.error .flowFailed, tr)
              | none => (.error .flowFailed, tr)
            else (.error .flowFailed, tr)
          else (.error .flowFailed, tr)
        else (.error .flowFailed, tr)
      else (.error .flowFailed, tr)
    else (.error .flowFailed, tr)

/-- Beta `PDKAuth.login`. -/
def login (env : Env) (system_id : String) (db : DB) (now : Nat) :
    Except Err AuthData × List Step × DB :=
  match _perform_login env system_id with
  | (.ok d, tr) => (.ok d, tr, TM.store_tokens db d now)
  | (.error e, tr) => (.error e, tr, db)

/-- Beta `PDKAuth.refresh_tokens` (tier 3): exchange a refresh token for a
new id token, then mint a system token; any failure returns `None` and
leaves the store untouched.  The current id token is only placed in the
request cookies, so it does not appear in the result. -/
def refresh_tokens (env : Env) (system_id : String) (db : DB) (now : Nat)
    (refresh_token : String) : Option AuthData × DB :=
  if env.refreshStatus == 200 then
    let new_id_token := env.refreshIdToken
    let new_refresh_token := env.refreshRefreshToken
    if truthy new_id_token then
      match new_id_token with
      | some nid =>
        match refresh_system_token env nid with
        | some st =>
          let d : AuthData :=
            { current_system_id := system_id
              auth_token := some nid
              access_token := none
              refresh_token := some (pyOr new_refresh_token refresh_token)
              system_token := some st
              auth_nonce := none }
          (some d, TM.store_tokens db d now)
        | none => (none, db)
      | none => (none, db)
    else (none, db)
  else (none, db)

/-- Lifecycle actions of the beta `PDKAuth.get_valid_tokens`. -/
inductive LAct where
  | queryValid
  | queryAuthTok
  | queryRefreshTok
  | tier2 (bearer : String)
  | tier3 (refreshTok : String)
  | loginFlow
deriving Repr, DecidableEq

/-- Is this action the tier-2 system-token exchange? -/
def LAct.isT2 : LAct → Bool
  | .tier2 _ => true
  | _ => false

/-- Is this action a full login-flow invocation? -/
def LAct.isLogin : LAct → Bool
  | .loginFlow => true
  | _ => false

namespace PDK

/-- Tail of the beta lifecycle manager (step 4: full authentication). -/
def doLogin (env : Env) (system_id : String) (db : DB) (now : Nat)
    (tr : List LAct) : Except Err AuthData × List LAct × DB :=
  match login env system_id db now with
  | (res, _, db') => (res, tr ++ [LAct.loginFlow], db')

/-- Beta `PDKAuth.get_valid_tokens`: tier 1 valid system token, tier 2
auth-token exchange, tier 3 refresh-token exchange (which stores once
inside `refresh_tokens` and once more in this method), tier 4 full
login. -/
def get_valid_tokens (env : Env) (system_id : String) (db : DB) (now : Nat) :
    Except Err AuthData × List LAct × DB :=
  match TM.get_valid_tokens db system_id now with
  | some tokens =>
      (.ok { current_system_id := tokens.system_id     -- tokens[0]
             auth_token := tokens.auth_token            -- tokens[1]
             access_token := tokens.access_token        -- tokens[2]
             system_token := tokens.system_token        -- tokens[3]
             refresh_token := tokens.refresh_token      -- tokens[4]
             auth_nonce := tokens.auth_nonce },         -- tokens[5]
       [.queryValid], db)
  | none =>
      let step3 : List LAct → Except Err AuthData × List LAct × DB := fun tr =>
        match TM.get_valid_refresh_token db system_id now with
        | some rt =>
            if rt != "" then
              match refresh_tokens env system_id db now rt with
              | (some d, db') =>
                  (.ok d, tr ++ [.queryRefreshTok, .tier3 rt],
                   TM.store_tokens db' d now)
              | (none, _) =>
                  doLogin env system_id db now (tr ++ [.queryRefreshTok, .tier3 rt])
            else
              doLogin env system_id db now (tr ++ [.queryRefreshTok])
        | none =>
            doLogin env system_id db now (tr ++ [.queryRefreshTok])
      match TM.get_valid_auth_token db system_id now with
      | some tok =>
          if tok != "" then
            match refresh_system_token env tok with
            | some st =>
                let d : AuthData :=
                  { current_system_id := system_id
                    auth_token := some tok
                    access_token := none                -- key absent
                    system_token := some st
                    refresh_token := none               -- key absent
                    auth_nonce := none }                -- key absent
                (.ok d, [.queryValid, .queryAuthTok, .tier2 tok],
                 TM.store_tokens db d now)
            | none =>
                step3 [.queryValid, .queryAuthTok, .tier2 tok]
          else
            step3 [.queryValid, .queryAuthTok]
      | none =>
          step3 [.queryValid, .queryAuthTok]

/-- Beta `PDKAuth.initialize` (spelled `initialise` here because the
source name is a Lean keyword): reuse a row with a valid system token,
otherwise run the full login.  The cached branch labels the columns of the
`SELECT *` tuple with the production-variant positions: position 4 of the
beta schema is the `refresh_token` column, yet it is returned under the
`auth_nonce` key, and no `refresh_token` key is produced at all. -/
def initialise (env : Env) (system_id : String) (db : DB) (now : Nat) :
    Except Err AuthData × DB :=
  match TM.get_valid_tokens db system_id now with
  | some tokens =>
      (.ok { current_system_id := tokens.system_id     -- tokens[0]
             auth_token := tokens.auth_token            -- tokens[1]
             access_token := tokens.access_token        -- tokens[2]
             system_token := tokens.system_token        -- tokens[3]
             auth_nonce := tokens.refresh_token         -- tokens[4] = refresh_token column
             refresh_token := none },                   -- key absent
       db)
  | none =>
      match login env system_id db now with
      | (res, _, db') => (res, db')

end PDK

end Beta

/- ===================================================================
   Authenticated request client: `BaseAPI._make_request`.
   The classification logic is identical in `auth.py` and `betaAuth.py`
   (only fixed headers differ), so it is embedded once.
   =================================================================== -/

namespace Req

/-- An HTTP response as observed by `_make_request`: the status code, the
result of `response.json()` when it succeeds (`none` models a body that is
empty or not decodable, e.g. a 204 No Content), and the raw text used in
error reports. -/
structure HttpResp where
  status : Nat
  jsonBody : Option String
  text : String
deriving Repr, DecidableEq

/-- Failures raised out of `_make_request`: `httpError` is the
`requests.HTTPError` from `raise_for_status` (it carries the response,
hence status and body), `decodeError` the `response.json()` failure on a
body with no decodable content. -/
inductive ReqErr where
  | httpError (status : Nat) (body : String)
  | decodeError
deriving Repr, DecidableEq

/-- Actions of one `_make_request` call: the credential check
(`_refresh_if_needed`, which runs the lifecycle manager) and the single
outbound HTTP request. -/
inductive RAct where
  | ensureCreds
  | httpCall
deriving Repr, DecidableEq

/-- Models `response.raise_for_status()`: raises exactly for 4xx and 5xx. -/
def raise_for_status (r : HttpResp) : Option ReqErr :=
  if 400 ≤ r.status ∧ r.status < 600 then some (.httpError r.status r.text) else none

/-- Models `BaseAPI._make_request`: refresh credentials, issue the request, then
`raise_for_status` followed by `response.json()`.  The `except` clause
only logs and re-raises, so no branch performs a second authentication. -/
def _make_request (resp : HttpResp) : Except ReqErr String × List RAct :=
  let tr := [RAct.ensureCreds, RAct.httpCall]
  match raise_for_status resp with
  | some e => (.error e, tr)
  | none =>
      match resp.jsonBody with
      | some v => (.ok v, tr)
      | none => (.error .decodeError, tr)

end Req

/- ===================================================================
   Helper lemmas about the list model of `INSERT OR REPLACE` / `SELECT`.
   =================================================================== -/

/-- A row surviving a filter on `key ≠ id` can never be found by a query
on `key = id`. -/
theorem find?_filter_key {α : Type} (key : α → String) (id : String)
    (p : α → Bool) (l : List α) :
    (l.filter (fun r => key r != id)).find? (fun r => key r == id && p r) = none := by
  induction l with
  | nil => rfl
  | cons a t ih =>
      by_cases hk : key a = id
      · simp [List.filter_cons, hk, ih]
      · simp [List.filter_cons, hk, List.find?_cons, ih]

/-- Filtering on `key ≠ id` and then on `key = id` leaves nothing. -/
theorem filter_filter_key {α : Type} (key : α → String) (id : String)
    (l : List α) :
    ((l.filter (fun r => key r != id)).filter (fun r => key r == id)) = [] := by
  induction l with
  | nil => rfl
  | cons a t ih =>
      by_cases hk : key a = id
      · simp [List.filter_cons, hk, ih]
      · simp [List.filter_cons, hk, ih]

/-- Reading back a freshly stored production row: present exactly while
the system-token expiry stamped at store time lies in the future. -/
theorem authReadStored (db : Auth.DB) (d : Auth.AuthData) (T now : Nat) :
    Auth.TM.get_valid_tokens (Auth.TM.store_tokens db d T) d.current_system_id now =
      if T + 300 > now then some (Auth.TM.mkRow d T) else none := by
  by_cases hn : T + 300 > now
  · simp [Auth.TM.get_valid_tokens, Auth.TM.store_tokens, List.find?_cons,
          Auth.TM.mkRow, hn]
  · simp only [Auth.TM.get_valid_tokens, Auth.TM.store_tokens, List.find?_cons,
               Auth.TM.mkRow, hn, if_false]
    have h1 := find?_filter_key (fun r : Auth.Row => r.system_id)
      d.current_system_id (fun r => decide (r.system_token_expiry > now)) db
    simp [Auth.TM.mkRow, hn, h1]

/-- Reading back a freshly stored beta row. -/
theorem betaReadStored (db : Beta.DB) (d : Beta.AuthData) (T now : Nat) :
    Beta.TM.get_valid_tokens (Beta.TM.store_tokens db d T) d.current_system_id now =
      if T + 300 > now then some (Beta.TM.mkRow d T) else none := by
  by_cases hn : T + 300 > now
  · simp [Beta.TM.get_valid_tokens, Beta.TM.store_tokens, List.find?_cons,
          Beta.TM.mkRow, hn]
  · simp only [Beta.TM.get_valid_tokens, Beta.TM.store_tokens, List.find?_cons,
               Beta.TM.mkRow, hn, if_false]
    have h1 := find?_filter_key (fun r : Beta.Row => r.system_id)
      d.current_system_id (fun r => decide (r.system_token_expiry > now)) db
    simp [Beta.TM.mkRow, hn, h1]

/-- After storing twice under the same key, exactly one row carries that
key: the one from the second write (production variant). -/
theorem authStoreStoreFilter (db : Auth.DB) (d1 d2 : Auth.AuthData)
    (n1 n2 : Nat) (h : d1.current_system_id = d2.current_system_id) :
    (Auth.TM.store_tokens (Auth.TM.store_tokens db d1 n1) d2 n2).filter
        (fun r => r.system_id == d2.current_system_id) = [Auth.TM.mkRow d2 n2] := by
  have h2 := filter_filter_key (fun r : Auth.Row => r.system_id)
    d2.current_system_id (db.filter
      (fun r => r.system_id != d1.current_system_id))
  simp [Auth.TM.store_tokens, List.filter_cons, Auth.TM.mkRow, h, h2]

/-- After storing twice under the same key, exactly one row carries that
key: the one from the second write (beta variant). -/
theorem betaStoreStoreFilter (db : Beta.DB) (d1 d2 : Beta.AuthData)
    (n1 n2 : Nat) (h : d1.current_system_id = d2.current_system_id) :
    (Beta.TM.store_tokens (Beta.TM.store_tokens db d1 n1) d2 n2).filter
        (fun r => r.system_id == d2.current_system_id) = [Beta.TM.mkRow d2 n2] := by
  have h2 := filter_filter_key (fun r : Beta.Row => r.system_id)
    d2.current_system_id (db.filter
      (fun r => r.system_id != d1.current_system_id))
  simp [Beta.TM.store_tokens, List.filter_cons, Beta.TM.mkRow, h, h2]

/- ===================================================================
   Concrete states and environments used by the counterexamples and
   witnesses.
   =================================================================== -/

/-- A stored production row whose system token is already expired while
its identity token is still valid (such a state arises whenever the
expiry columns were written by different versions of the code; the store
itself is plain mutable SQLite state). -/
def exRowA : Auth.Row :=
  { system_id := "sys", auth_token := some "A", access_token := some "AC"
    system_token := some "ST", auth_nonce := some "N"
    auth_token_expiry := 250, system_token_expiry := 100, last_updated := 0 }

/-- Production store holding `exRowA`. -/
def exDbA : Auth.DB := [exRowA]

/-- A beta row in the analogous state, additionally holding a distinct
refresh token. -/
def exRowB : Beta.Row :=
  { system_id := "sys", auth_token := some "A", access_token := some "AC"
    system_token := some "ST", refresh_token := some "R", auth_nonce := some "N"
    auth_token_expiry := 250, system_token_expiry := 100
    refresh_token_expiry := 2592000, last_updated := 0 }

/-- Beta store holding `exRowB`. -/
def exDbB : Beta.DB := [exRowB]

/-- Production environment in which the tier-2 mint endpoint answers 200
with token `"S2"`. -/
def envT2A : Auth.Env :=
  { loginStatus := 200, uuid4 := "u", oauthStatus := 0, oauthLocation := ""
    inter1Status := 0, inter2Status := 0, inter2Location := ""
    unquote := fun s => s, mintStatus := fun _ => 200
    mintToken := fun _ => some "S2" }

/-- Beta environment in which the tier-2 mint endpoint answers 200 with
the `systemToken` cookie `"S2"`. -/
def envT2B : Beta.Env :=
  { loginStatus := 200, oauthStatus := 0, oauthLocation := ""
    inter1Status := 0, inter2Status := 0, inter2Location := ""
    cbStatus := 0, cbIdToken := none, cbRefreshToken := none
    mintStatus := fun _ => 200, mintCookieToken := fun _ => some "S2"
    refreshStatus := 0, refreshIdToken := none, refreshRefreshToken := none }

/-- Production environment whose login endpoint answers 429. -/
def env429A : Auth.Env :=
  { loginStatus := 429, uuid4 := "u", oauthStatus := 0, oauthLocation := ""
    inter1Status := 0, inter2Status := 0, inter2Location := ""
    unquote := fun s => s, mintStatus := fun _ => 0, mintToken := fun _ => none }

/-- Beta environment whose login endpoint answers 429. -/
def env429B : Beta.Env :=
  { loginStatus := 429, oauthStatus := 0, oauthLocation := ""
    inter1Status := 0, inter2Status := 0, inter2Location := ""
    cbStatus := 0, cbIdToken := none, cbRefreshToken := none
    mintStatus := fun _ => 0, mintCookieToken := fun _ => none
    refreshStatus := 0, refreshIdToken := none, refreshRefreshToken := none }

/-- Production environment whose flow reaches `InteractionStep2` but whose
callback `Location` carries no fragment, hence no token material. -/
def envNoTokA : Auth.Env :=
  { loginStatus := 200, uuid4 := "u", oauthStatus := 302
    oauthLocation := "/interaction/abc", inter1Status := 302
    inter2Status := 302, inter2Location := "https://pdk.io/authCallback"
    unquote := fun s => s, mintStatus := fun _ => 0, mintToken := fun _ => none }

/-- Beta environment whose flow reaches the callback exchange but obtains
no `idToken` cookie. -/
def envNoTokB : Beta.Env :=
  { loginStatus := 200, oauthStatus := 302
    oauthLocation := "/interaction/abc", inter1Status := 302
    inter2Status := 302, inter2Location := "cb"
    cbStatus := 302, cbIdToken := none, cbRefreshToken := some "R1"
    mintStatus := fun _ => 0, mintCookieToken := fun _ => none
    refreshStatus := 0, refreshIdToken := none, refreshRefreshToken := none }

/-- Beta environment in which the whole authentication flow succeeds
(all redirects in place, callback sets both cookies, mint answers with
`"SYS1"`). -/
def envFlowB : Beta.Env :=
  { loginStatus := 200, oauthStatus := 302
    oauthLocation := "https://betaaccounts.pdk.io/interaction/abc123"
    inter1Status := 302, inter2Status := 302
    inter2Location := "https://beta.pdk.io/api/auth/callback?code=xyz"
    cbStatus := 302, cbIdToken := some "ID1", cbRefreshToken := some "R1"
    mintStatus := fun _ => 200, mintCookieToken := fun _ => some "SYS1"
    refreshStatus := 0, refreshIdToken := none, refreshRefreshToken := none }

/-- Sample production credential sets sharing the account id `"sys"`. -/
def exDataA : Auth.AuthData :=
  { current_system_id := "sys", auth_token := some "A", access_token := none
    system_token := some "ST", auth_nonce := none }

/-- A second production credential set for the same account id. -/
def exDataA2 : Auth.AuthData :=
  { current_system_id := "sys", auth_token := some "A2", access_token := some "AC2"
    system_token := some "ST2", auth_nonce := some "N2" }

/-- Sample beta credential sets sharing the account id `"sys"`. -/
def exDataB : Beta.AuthData :=
  { current_system_id := "sys", auth_token := some "A", access_token := none
    system_token := some "ST", refresh_token := some "R", auth_nonce := none }

/-- A second beta credential set for the same account id. -/
def exDataB2 : Beta.AuthData :=
  { current_system_id := "sys", auth_token := some "A2", access_token := some "AC2"
    system_token := some "ST2", refresh_token := some "R2", auth_nonce := some "N2" }

/- ===================================================================
   Claim theorems.
   =================================================================== -/

/-- C7: for both variants, the Token Store's validity predicate is exactly
`now < storeTime + TTL` (the `system_token_expiry > now` comparison on an
expiry stamped `storeTime + 5 min`); concretely a set stored at `T = 0`
is returned at `T + 299` seconds and not at `T + 301` seconds. -/
theorem c7_expiry_correct (dbA : Auth.DB) (dA : Auth.AuthData) (TA nowA : Nat)
    (dbB : Beta.DB) (dB : Beta.AuthData) (TB nowB : Nat) :
    (Auth.TM.get_valid_tokens (Auth.TM.store_tokens dbA dA TA)
        dA.current_system_id nowA =
      if TA + 300 > nowA then some (Auth.TM.mkRow dA TA) else none)
    ∧ (Beta.TM.get_valid_tokens (Beta.TM.store_tokens dbB dB TB)
        dB.current_system_id nowB =
      if TB + 300 > nowB then some (Beta.TM.mkRow dB TB) else none)
    ∧ ((Auth.TM.get_valid_tokens (Auth.TM.store_tokens [] exDataA 0) "sys" 299).isSome = true)
    ∧ (Auth.TM.get_valid_tokens (Auth.TM.store_tokens [] exDataA 0) "sys" 301 = none) :=
  ⟨authReadStored dbA dA TA nowA, betaReadStored dbB dB TB nowB, rfl, rfl⟩

/-- C9: `store_tokens` is an upsert keyed on the account id — after two
stores under the same id exactly one row with that id remains, and reads
observe the second write's values (until its stamped expiry passes). -/
theorem c9_upsert_idempotent (dbA : Auth.DB) (d1 d2 : Auth.AuthData)
    (n1 n2 nowA : Nat) (hA : d1.current_system_id = d2.current_system_id)
    (dbB : Beta.DB) (e1 e2 : Beta.AuthData) (m1 m2 nowB : Nat)
    (hB : e1.current_system_id = e2.current_system_id) :
    ((Auth.TM.store_tokens (Auth.TM.store_tokens dbA d1 n1) d2 n2).filter
        (fun r => r.system_id == d2.current_system_id) = [Auth.TM.mkRow d2 n2])
    ∧ (Auth.TM.get_valid_tokens
        (Auth.TM.store_tokens (Auth.TM.store_tokens dbA d1 n1) d2 n2)
        d2.current_system_id nowA =
      if n2 + 300 > nowA then some (Auth.TM.mkRow d2 n2) else none)
    ∧ ((Beta.TM.store_tokens (Beta.TM.store_tokens dbB e1 m1) e2 m2).filter
        (fun r => r.system_id == e2.current_system_id) = [Beta.TM.mkRow e2 m2])
    ∧ (Beta.TM.get_valid_tokens
        (Beta.TM.store_tokens (Beta.TM.store_tokens dbB e1 m1) e2 m2)
        e2.current_system_id nowB =
      if m2 + 300 > nowB then some (Beta.TM.mkRow e2 m2) else none) :=
  ⟨authStoreStoreFilter dbA d1 d2 n1 n2 hA,
   authReadStored (Auth.TM.store_tokens dbA d1 n1) d2 n2 nowA,
   betaStoreStoreFilter dbB e1 e2 m1 m2 hB,
   betaReadStored (Beta.TM.store_tokens dbB e1 m1) e2 m2 nowB⟩

/-- C9 witness: two concrete stores under `"sys"` leave exactly the second
row, which a read at time 100 returns. -/
theorem c9_witness :
    ((Auth.TM.store_tokens (Auth.TM.store_tokens [] exDataA 0) exDataA2 7).filter
        (fun r => r.system_id == exDataA2.current_system_id) = [Auth.TM.mkRow exDataA2 7])
    ∧ (Auth.TM.get_valid_tokens
        (Auth.TM.store_tokens (Auth.TM.store_tokens [] exDataA 0) exDataA2 7)
        exDataA2.current_system_id 100 =
      if 7 + 300 > 100 then some (Auth.TM.mkRow exDataA2 7) else none)
    ∧ ((Beta.TM.store_tokens (Beta.TM.store_tokens [] exDataB 0) exDataB2 7).filter
        (fun r => r.system_id == exDataB2.current_system_id) = [Beta.TM.mkRow exDataB2 7])
    ∧ (Beta.TM.get_valid_tokens
        (Beta.TM.store_tokens (Beta.TM.store_tokens [] exDataB 0) exDataB2 7)
        exDataB2.current_system_id 100 =
      if 7 + 300 > 100 then some (Beta.TM.mkRow exDataB2 7) else none) :=
  c9_upsert_idempotent [] exDataA exDataA2 0 7 100 rfl [] exDataB exDataB2 0 7 100 rfl

/-- C2 counterexample: at the concrete state `exDbA` (identity token
`"A"` stored with expiry 250, system token expired) a tier-2 success at
time 200 persists the same, reused identity token `"A"` with expiry
500 = 200 + 5 min — the operation moved a non-newly-issued token's expiry
forward, contradicting `issueTime + fixedTTL` / no-sliding-window. -/
theorem c2_counterexample :
    ((Auth.PDK.get_valid_tokens envT2A "sys" exDbA 200).2.2 =
      [Auth.TM.mkRow
        { current_system_id := "sys", auth_token := some "A", access_token := none
          system_token := some "S2", auth_nonce := none } 200])
    ∧ (exRowA.auth_token = some "A") ∧ (exRowA.auth_token_expiry = 250)
    ∧ ((Auth.TM.mkRow
        { current_system_id := "sys", auth_token := some "A", access_token := none
          system_token := some "S2", auth_nonce := none } 200).auth_token = some "A")
    ∧ ((Auth.TM.mkRow
        { current_system_id := "sys", auth_token := some "A", access_token := none
          system_token := some "S2", auth_nonce := none } 200).auth_token_expiry = 500)
    ∧ (250 < 500) :=
  ⟨rfl, rfl, rfl, rfl, rfl, by norm_num⟩

/-- C2 amended: every `store_tokens` stamps every expiry at store time —
identity and system expiries become `storeTime + 5 min` and (beta) the
refresh expiry `storeTime + 30 days` — for whatever credential set is
being persisted, newly issued or reused; no expiry is carried over. -/
theorem c2_amended (dbA : Auth.DB) (dA : Auth.AuthData) (nowA : Nat)
    (dbB : Beta.DB) (dB : Beta.AuthData) (nowB : Nat) :
    ((Auth.TM.store_tokens dbA dA nowA).head? = some (Auth.TM.mkRow dA nowA))
    ∧ ((Auth.TM.mkRow dA nowA).auth_token_expiry = nowA + 300)
    ∧ ((Auth.TM.mkRow dA nowA).system_token_expiry = nowA + 300)
    ∧ ((Beta.TM.store_tokens dbB dB nowB).head? = some (Beta.TM.mkRow dB nowB))
    ∧ ((Beta.TM.mkRow dB nowB).auth_token_expiry = nowB + 300)
    ∧ ((Beta.TM.mkRow dB nowB).system_token_expiry = nowB + 300)
    ∧ ((Beta.TM.mkRow dB nowB).refresh_token_expiry = nowB + 2592000) :=
  ⟨rfl, rfl, rfl, rfl, rfl, rfl, rfl⟩

/-- C10 (beta cached-read disagreement): on the stored row `exRowB`
(nonce column `"N"`, refresh-token column `"R"`) with a valid system
token, `initialize` returns the refresh-token column under the
`auth_nonce` key and no refresh token at all, while the tier-1 branch of
`get_valid_tokens` returns nonce `"N"` and refresh token `"R"` — the two
cached-read paths disagree because `initialize` still uses the
production-schema column positions. -/
theorem c10_initialize_bug :
    (Beta.PDK.initialise envT2B "sys" exDbB 50 =
      (.ok { current_system_id := "sys", auth_token := some "A"
             access_token := some "AC", system_token := some "ST"
             refresh_token := none, auth_nonce := some "R" }, exDbB))
    ∧ ((Beta.PDK.get_valid_tokens envT2B "sys" exDbB 50).1 =
      .ok { current_system_id := "sys", auth_token := some "A"
            access_token := some "AC", system_token := some "ST"
            refresh_token := some "R", auth_nonce := some "N" })
    ∧ (exRowB.auth_nonce = some "N") ∧ (exRowB.refresh_token = some "R") :=
  ⟨rfl, rfl, rfl, rfl⟩

/-- C8 counterexample: a 204 No Content response does not produce a
success flag — `_make_request` calls `response.json()` unconditionally
after `raise_for_status`, so the call raises a decode failure. -/
theorem c8_counterexample :
    (Req._make_request { status := 204, jsonBody := none, text := "" } =
      (.error .decodeError, [.ensureCreds, .httpCall]))
    ∧ (exceptOk (Req._make_request { status := 204, jsonBody := none, text := "" }).1
        = false) :=
  ⟨rfl, rfl⟩

/-- C8 amended: `_make_request` raises for every 4xx/5xx carrying status
and body; outside that range it returns the decoded JSON body when one
exists and raises a decode failure when the response has no decodable
content (no success flag); and its action trace is always exactly one
credential check followed by one request — no re-authentication ever
follows the response. -/
theorem c8_amended (resp : Req.HttpResp) :
    (400 ≤ resp.status ∧ resp.status < 600 →
      Req._make_request resp =
        (.error (.httpError resp.status resp.text), [.ensureCreds, .httpCall]))
    ∧ (¬ (400 ≤ resp.status ∧ resp.status < 600) → ∀ v, resp.jsonBody = some v →
      Req._make_request resp = (.ok v, [.ensureCreds, .httpCall]))
    ∧ (¬ (400 ≤ resp.status ∧ resp.status < 600) → resp.jsonBody = none →
      Req._make_request resp = (.error .decodeError, [.ensureCreds, .httpCall]))
    ∧ ((Req._make_request resp).2 = [.ensureCreds, .httpCall]) := by
  refine ⟨?_, ?_, ?_, ?_⟩
  · intro h
    simp [Req._make_request, Req.raise_for_status, h]
  · intro h v hv
    simp [Req._make_request, Req.raise_for_status, h, hv]
  · intro h hv
    simp [Req._make_request, Req.raise_for_status, h, hv]
  · by_cases h : 400 ≤ resp.status ∧ resp.status < 600
    · simp [Req._make_request, Req.raise_for_status, h]
    · cases hv : resp.jsonBody <;>
        simp [Req._make_request, Req.raise_for_status, h, hv]

/-- C8 witness: a 404 raises with status and body; a 200 with a decodable
body returns the decoded value. -/
theorem c8_witness :
    (Req._make_request { status := 404, jsonBody := none, text := "nf" } =
      (.error (.httpError 404 "nf"), [.ensureCreds, .httpCall]))
    ∧ (Req._make_request { status := 200, jsonBody := some "B", text := "" } =
      (.ok "B", [.ensureCreds, .httpCall])) :=
  ⟨(c8_amended { status := 404, jsonBody := none, text := "nf" }).1 (by norm_num),
   (c8_amended { status := 200, jsonBody := some "B", text := "" }).2.1
     (by norm_num) "B" rfl⟩

/-- C3 counterexample: at `exDbA`/`exDbB` (stored access token `"AC"`,
nonce `"N"`, and — beta — refresh token `"R"`) a tier-2 success returns
and persists a credential set whose access token, nonce and (beta)
refresh token are `None`, not the previously stored values: the "merged"
set does not retain the fields the exchange did not produce. -/
theorem c3_counterexample :
    ((Auth.PDK.get_valid_tokens envT2A "sys" exDbA 200).1 =
      .ok { current_system_id := "sys", auth_token := some "A", access_token := none
            system_token := some "S2", auth_nonce := none })
    ∧ (exRowA.access_token = some "AC") ∧ (exRowA.auth_nonce = some "N")
    ∧ ((Auth.PDK.get_valid_tokens envT2A "sys" exDbA 200).2.2.head? =
      some (Auth.TM.mkRow
        { current_system_id := "sys", auth_token := some "A", access_token := none
          system_token := some "S2", auth_nonce := none } 200))
    ∧ ((Beta.PDK.get_valid_tokens envT2B "sys" exDbB 200).1 =
      .ok { current_system_id := "sys", auth_token := some "A", access_token := none
            system_token := some "S2", refresh_token := none, auth_nonce := none })
    ∧ (exRowB.refresh_token = some "R") :=
  ⟨rfl, rfl, rfl, rfl, rfl, rfl⟩

/-- C3 amended: on a tier-2 success each variant persists and returns a
credential set in which only the identity token is reused and the system
token is the newly minted one; the access token, the nonce and (beta) the
refresh token are reset to `None` rather than retaining their previously
stored values. -/
theorem c3_amended (envA : Auth.Env) (sysA : String) (dbA : Auth.DB)
    (nowA : Nat) (tokA stA : String)
    (hA1 : Auth.TM.get_valid_tokens dbA sysA nowA = none)
    (hA2 : Auth.TM.get_valid_auth_token dbA sysA nowA = some tokA)
    (hA3 : (tokA != "") = true)
    (hA4 : Auth.refresh_system_token envA tokA = some stA)
    (hA5 : (stA != "") = true)
    (envB : Beta.Env) (sysB : String) (dbB : Beta.DB)
    (nowB : Nat) (tokB stB : String)
    (hB1 : Beta.TM.get_valid_tokens dbB sysB nowB = none)
    (hB2 : Beta.TM.get_valid_auth_token dbB sysB nowB = some tokB)
    (hB3 : (tokB != "") = true)
    (hB4 : Beta.refresh_system_token envB tokB = some stB) :
    (Auth.PDK.get_valid_tokens envA sysA dbA nowA =
      (.ok { current_system_id := sysA, auth_token := some tokA
             access_token := none, system_token := some stA, auth_nonce := none },
       [.queryValid, .queryAuthTok, .tier2 tokA],
       Auth.TM.store_tokens dbA
         { current_system_id := sysA, auth_token := some tokA
           access_token := none, system_token := some stA, auth_nonce := none }
         nowA))
    ∧ (Beta.PDK.get_valid_tokens envB sysB dbB nowB =
      (.ok { current_system_id := sysB, auth_token := some tokB
             access_token := none, system_token := some stB
             refresh_token := none, auth_nonce := none },
       [.queryValid, .queryAuthTok, .tier2 tokB],
       Beta.TM.store_tokens dbB
         { current_system_id := sysB, auth_token := some tokB
           access_token := none, system_token := some stB
           refresh_token := none, auth_nonce := none }
         nowB)) := by
  constructor
  · simp [Auth.PDK.get_valid_tokens, hA1, hA2, hA3, hA4, truthy, hA5]
  · simp [Beta.PDK.get_valid_tokens, hB1, hB2, hB3, hB4]

/-- C3 witness: the amended tier-2 behavior at the concrete state
`exDbA`/`exDbB` and environments `envT2A`/`envT2B`. -/
theorem c3_witness :
    (Auth.PDK.get_valid_tokens envT2A "sys" exDbA 200 =
      (.ok { current_system_id := "sys", auth_token := some "A"
             access_token := none, system_token := some "S2", auth_nonce := none },
       [.queryValid, .queryAuthTok, .tier2 "A"],
       Auth.TM.store_tokens exDbA
         { current_system_id := "sys", auth_token := some "A"
           access_token := none, system_token := some "S2", auth_nonce := none }
         200))
    ∧ (Beta.PDK.get_valid_tokens envT2B "sys" exDbB 200 =
      (.ok { current_system_id := "sys", auth_token := some "A"
             access_token := none, system_token := some "S2"
             refresh_token := none, auth_nonce := none },
       [.queryValid, .queryAuthTok, .tier2 "A"],
       Beta.TM.store_tokens exDbB
         { current_system_id := "sys", auth_token := some "A"
           access_token := none, system_token := some "S2"
           refresh_token := none, auth_nonce := none }
         200)) :=
  c3_amended envT2A "sys" exDbA 200 "A" "S2" rfl rfl rfl rfl rfl
    envT2B "sys" exDbB 200 "A" "S2" rfl rfl rfl rfl

/-- C4: whenever the login flow fails, `login` propagates the error and
returns the token store unchanged — no credential set is written.  The
last four conjuncts show that a wrong login status, a missing
authorization redirect, a failed `InteractionStep2` redirect and missing
token material at the callback all are such failures. -/
theorem c4_failure_isolation (envA : Auth.Env) (sysA : String) (dbA : Auth.DB)
    (nowA : Nat) (envB : Beta.Env) (sysB : String) (dbB : Beta.DB) (nowB : Nat) :
    (∀ e tr, Auth._perform_login envA sysA = (.error e, tr) →
      Auth.login envA sysA dbA nowA = (.error e, tr, dbA))
    ∧ (∀ e tr, Beta._perform_login envB sysB = (.error e, tr) →
      Beta.login envB sysB dbB nowB = (.error e, tr, dbB))
    ∧ (envA.loginStatus ≠ 200 → exceptOk (Auth._perform_login envA sysA).1 = false)
    ∧ (envA.oauthStatus ≠ 302 → exceptOk (Auth._perform_login envA sysA).1 = false)
    ∧ (envA.inter2Status ≠ 302 → exceptOk (Auth._perform_login envA sysA).1 = false)
    ∧ (envB.cbIdToken = none → exceptOk (Beta._perform_login envB sysB).1 = false) := by
  refine ⟨?_, ?_, ?_, ?_, ?_, ?_⟩
  · intro e tr h
    simp [Auth.login, h]
  · intro e tr h
    simp [Beta.login, h]
  · intro h
    have h2 : (envA.loginStatus != 200) = true := by simp [h]
    cases hb : (envA.loginStatus == 429) <;>
      simp [Auth._perform_login, hb, h2, exceptOk]
  · intro h
    have h4 : (envA.oauthStatus == 302) = false := by simp [h]
    cases hb : (envA.loginStatus == 429) <;>
      cases hc : (envA.loginStatus != 200) <;>
        simp [Auth._perform_login, hb, hc, h4, exceptOk]
  · intro h
    have h5 : (envA.inter2Status == 302) = false := by simp [h]
    cases hb : (envA.loginStatus == 429) <;>
      cases hc : (envA.loginStatus != 200) <;>
        cases hd : (envA.oauthStatus == 302) <;>
          cases he : (envA.inter1Status == 302) <;>
            simp [Auth._perform_login, hb, hc, hd, he, h5, exceptOk]
  · intro h
    cases hb : (envB.loginStatus == 429) <;>
      cases hc : (envB.loginStatus != 200) <;>
        cases hd : (envB.oauthStatus == 302) <;>
          cases he : (envB.inter1Status == 302) <;>
            cases hf : (envB.inter2Status == 302) <;>
              cases hg : (envB.cbStatus == 302 || envB.cbStatus == 307) <;>
                simp [Beta._perform_login, hb, hc, hd, he, hf, hg, h, truthy, exceptOk]

/-- C4 witness: concrete failing flows — the production callback carries
no fragment, the beta callback sets no `idToken` cookie — leave the
concrete stores `exDbA`/`exDbB` untouched. -/
theorem c4_witness :
    (Auth.login envNoTokA "sys" exDbA 777 =
      (.error .flowFailed,
       [.loginPost, .profileFetch,
        .oauthAuthorize (Auth.oauth_params (Auth.mkNonce "u")),
        .interaction1 "abc", .interaction2 "abc"],
       exDbA))
    ∧ (Beta.login envNoTokB "sys" exDbB 777 =
      (.error .flowFailed,
       [.profileCheck, .preLoginCheck, .loginPost, .profileFetch,
        .oauthAuthorize Beta.oauth_params,
        .interaction1 "abc", .interaction2 "abc", .callbackExchange "cb"],
       exDbB)) :=
  ⟨(c4_failure_isolation envNoTokA "sys" exDbA 777 envNoTokB "sys" exDbB 777).1
      .flowFailed _ rfl,
   (c4_failure_isolation envNoTokA "sys" exDbA 777 envNoTokB "sys" exDbB 777).2.1
      .flowFailed _ rfl⟩

/-- C5: a 429 from the login endpoint aborts the flow right there — the
flow trace ends at the login request, the lifecycle call surfaces the
rate-limit failure to its caller, exactly one flow invocation appears in
the lifecycle trace, and nothing is stored. -/
theorem c5_rate_limit (envA : Auth.Env) (envB : Beta.Env) (sysA sysB : String)
    (nowA nowB : Nat) (hA : envA.loginStatus = 429) (hB : envB.loginStatus = 429) :
    (Auth._perform_login envA sysA = (.error .rateLimited, [.loginPost]))
    ∧ (Beta._perform_login envB sysB =
        (.error .rateLimited, [.profileCheck, .preLoginCheck, .loginPost]))
    ∧ (Auth.PDK.get_valid_tokens envA sysA [] nowA =
        (.error .rateLimited, [.queryValid, .queryAuthTok, .loginFlow], []))
    ∧ (Beta.PDK.get_valid_tokens envB sysB [] nowB =
        (.error .rateLimited,
         [.queryValid, .queryAuthTok, .queryRefreshTok, .loginFlow], [])) := by
  refine ⟨?_, ?_, ?_, ?_⟩
  · simp [Auth._perform_login, hA]
  · simp [Beta._perform_login, hB]
  · simp [Auth.PDK.get_valid_tokens, Auth.TM.get_valid_tokens,
          Auth.TM.get_valid_auth_token, Auth.PDK.doLogin, Auth.login,
          Auth._perform_login, hA]
  · simp [Beta.PDK.get_valid_tokens, Beta.TM.get_valid_tokens,
          Beta.TM.get_valid_auth_token, Beta.TM.get_valid_refresh_token,
          Beta.PDK.doLogin, Beta.login, Beta._perform_login, hB]

/-- C5 witness: the rate-limited scenario at the concrete environments
`env429A`/`env429B` starting from an empty store. -/
theorem c5_witness :
    (Auth._perform_login env429A "sys" = (.error .rateLimited, [.loginPost]))
    ∧ (Beta._perform_login env429B "sys" =
        (.error .rateLimited, [.profileCheck, .preLoginCheck, .loginPost]))
    ∧ (Auth.PDK.get_valid_tokens env429A "sys" [] 0 =
        (.error .rateLimited, [.queryValid, .queryAuthTok, .loginFlow], []))
    ∧ (Beta.PDK.get_valid_tokens env429B "sys" [] 0 =
        (.error .rateLimited,
         [.queryValid, .queryAuthTok, .queryRefreshTok, .loginFlow], [])) :=
  c5_rate_limit env429A env429B "sys" "sys" 0 0 rfl rfl

/-- C6 counterexample: a complete, successful run of the beta
authentication flow whose authorization request carries no `nonce`
parameter at all — the beta variant never generates one. -/
theorem c6_counterexample :
    (exceptOk (Beta._perform_login envFlowB "sys").1 = true)
    ∧ ((Beta._perform_login envFlowB "sys").2 =
       [.profileCheck, .preLoginCheck, .loginPost, .profileFetch,
        .oauthAuthorize Beta.oauth_params,
        .interaction1 "abc123", .interaction2 "abc123",
        .callbackExchange "https://beta.pdk.io/api/auth/callback?code=xyz",
        .mint "ID1"])
    ∧ (dictGet Beta.oauth_params "nonce" = none) :=
  ⟨rfl, rfl, rfl⟩

set_option maxHeartbeats 1600000 in
/-- C6 amended: only the production flow sends a freshly generated nonce
(the hyphen-stripped 32-character prefix of a random UUID) in its
authorization request; the beta flow's authorization request has no
`nonce` parameter.  In each variant, every authorization request the flow
ever issues carries exactly its variant's parameter set. -/
theorem c6_amended (u : String) (envA : Auth.Env) (sysA : String)
    (envB : Beta.Env) (sysB : String) :
    (dictGet (Auth.oauth_params (Auth.mkNonce u)) "nonce" = some (Auth.mkNonce u))
    ∧ (dictGet Beta.oauth_params "nonce" = none)
    ∧ (∀ ps, Auth.Step.oauthAuthorize ps ∈ (Auth._perform_login envA sysA).2 →
        ps = Auth.oauth_params (Auth.mkNonce envA.uuid4))
    ∧ (∀ ps, Beta.Step.oauthAuthorize ps ∈ (Beta._perform_login envB sysB).2 →
        ps = Beta.oauth_params) := by
  refine ⟨rfl, rfl, ?_, ?_⟩
  · intro ps hps
    unfold Auth._perform_login at hps
    iterate 16 (all_goals (try (split at hps)) <;> (try simp_all))
  · intro ps hps
    unfold Beta._perform_login at hps
    iterate 16 (all_goals (try (split at hps)) <;> (try simp_all))

/-- C6 witness: the production nonce lookup at the concrete UUID string
`"u"`, and both membership hypotheses discharged on concrete flow runs
(`envNoTokA` reaches the production authorization request, `envFlowB` the
beta one). -/
theorem c6_witness :
    (dictGet (Auth.oauth_params (Auth.mkNonce "u")) "nonce" = some (Auth.mkNonce "u"))
    ∧ (Auth.oauth_params (Auth.mkNonce "u") = Auth.oauth_params (Auth.mkNonce envNoTokA.uuid4))
    ∧ (Beta.oauth_params = Beta.oauth_params) :=
  ⟨(c6_amended "u" envNoTokA "sys" envFlowB "sys").1,
   (c6_amended "u" envNoTokA "sys" envFlowB "sys").2.2.1
     (Auth.oauth_params (Auth.mkNonce "u")) (by decide),
   (c6_amended "u" envNoTokA "sys" envFlowB "sys").2.2.2
     Beta.oauth_params (by decide)⟩

/-- C1: from any store state whose system token is rejected while the
identity token is still returned, both variants of `ensureCredentials`
perform the tier-2 exchange with the stored identity token exactly once,
and no full login-flow invocation ever precedes it. -/
theorem c1_tier2_before_login (envA : Auth.Env) (sysA : String) (dbA : Auth.DB)
    (nowA : Nat) (tokA : String)
    (hA1 : Auth.TM.get_valid_tokens dbA sysA nowA = none)
    (hA2 : Auth.TM.get_valid_auth_token dbA sysA nowA = some tokA)
    (hA3 : (tokA != "") = true)
    (envB : Beta.Env) (sysB : String) (dbB : Beta.DB)
    (nowB : Nat) (tokB : String)
    (hB1 : Beta.TM.get_valid_tokens dbB sysB nowB = none)
    (hB2 : Beta.TM.get_valid_auth_token dbB sysB nowB = some tokB)
    (hB3 : (tokB != "") = true) :
    ((Auth.PDK.get_valid_tokens envA sysA dbA nowA).2.1.filter Auth.LAct.isT2 =
      [Auth.LAct.tier2 tokA])
    ∧ (Auth.LAct.loginFlow ∉
        (Auth.PDK.get_valid_tokens envA sysA dbA nowA).2.1.takeWhile
          (fun a => !(Auth.LAct.isT2 a)))
    ∧ ((Beta.PDK.get_valid_tokens envB sysB dbB nowB).2.1.filter Beta.LAct.isT2 =
      [Beta.LAct.tier2 tokB])
    ∧ (Beta.LAct.loginFlow ∉
        (Beta.PDK.get_valid_tokens envB sysB dbB nowB).2.1.takeWhile
          (fun a => !(Beta.LAct.isT2 a))) := by
  have HA : ((Auth.PDK.get_valid_tokens envA sysA dbA nowA).2.1.filter Auth.LAct.isT2 =
        [Auth.LAct.tier2 tokA])
      ∧ (Auth.LAct.loginFlow ∉
          (Auth.PDK.get_valid_tokens envA sysA dbA nowA).2.1.takeWhile
            (fun a => !(Auth.LAct.isT2 a))) := by
    rcases hlg : Auth.login envA sysA dbA nowA with ⟨res, steps, db2⟩
    by_cases hr : truthy (Auth.refresh_system_token envA tokA)
    · constructor <;>
        simp [Auth.PDK.get_valid_tokens, hA1, hA2, hA3, hr, Auth.LAct.isT2]
    · constructor <;>
        simp [Auth.PDK.get_valid_tokens, Auth.PDK.doLogin, hlg, hA1, hA2, hA3,
              hr, Auth.LAct.isT2]
  have HB : ((Beta.PDK.get_valid_tokens envB sysB dbB nowB).2.1.filter Beta.LAct.isT2 =
        [Beta.LAct.tier2 tokB])
      ∧ (Beta.LAct.loginFlow ∉
          (Beta.PDK.get_valid_tokens envB sysB dbB nowB).2.1.takeWhile
            (fun a => !(Beta.LAct.isT2 a))) := by
    rcases hlg : Beta.login envB sysB dbB nowB with ⟨res, steps, db2⟩
    cases hr : Beta.refresh_system_token envB tokB with
    | some st =>
        constructor <;>
          simp [Beta.PDK.get_valid_tokens, hB1, hB2, hB3, hr, Beta.LAct.isT2]
    | none =>
        cases hq3 : Beta.TM.get_valid_refresh_token dbB sysB nowB with
        | some rt =>
            by_cases hrt : (rt != "") = true
            · rcases hex : Beta.refresh_tokens envB sysB dbB nowB rt with ⟨od, db3⟩
              cases od with
              | some d =>
                  constructor <;>
                    simp [Beta.PDK.get_valid_tokens, hB1, hB2, hB3, hr, hq3, hrt,
                          hex, Beta.LAct.isT2]
              | none =>
                  constructor <;>
                    simp [Beta.PDK.get_valid_tokens, Beta.PDK.doLogin, hlg, hB1,
                          hB2, hB3, hr, hq3, hrt, hex, Beta.LAct.isT2]
            · constructor <;>
                simp [Beta.PDK.get_valid_tokens, Beta.PDK.doLogin, hlg, hB1, hB2,
                      hB3, hr, hq3, hrt, Beta.LAct.isT2]
        | none =>
            constructor <;>
              simp [Beta.PDK.get_valid_tokens, Beta.PDK.doLogin, hlg, hB1, hB2,
                    hB3, hr, hq3, Beta.LAct.isT2]
  exact ⟨HA.1, HA.2, HB.1, HB.2⟩

/-- C1 witness: the ordering property at the concrete state
`exDbA`/`exDbB` (system token expired at time 200, identity token `"A"`
valid) and environments `envT2A`/`envT2B`. -/
theorem c1_witness :
    ((Auth.PDK.get_valid_tokens envT2A "sys" exDbA 200).2.1.filter Auth.LAct.isT2 =
      [Auth.LAct.tier2 "A"])
    ∧ (Auth.LAct.loginFlow ∉
        (Auth.PDK.get_valid_tokens envT2A "sys" exDbA 200).2.1.takeWhile
          (fun a => !(Auth.LAct.isT2 a)))
    ∧ ((Beta.PDK.get_valid_tokens envT2B "sys" exDbB 200).2.1.filter Beta.LAct.isT2 =
      [Beta.LAct.tier2 "A"])
    ∧ (Beta.LAct.loginFlow ∉
        (Beta.PDK.get_valid_tokens envT2B "sys" exDbB 200).2.1.takeWhile
          (fun a => !(Beta.LAct.isT2 a))) :=
  c1_tier2_before_login envT2A "sys" exDbA 200 "A" rfl rfl rfl
    envT2B "sys" exDbB 200 "A" rfl rfl rfl

end PDKio
